import Mathlib

/-!
Verification of the workflow-orchestration core of the promotion-coach
multi-agent program.  The Python sources under `src/` are shallowly embedded:
pure step functions become Lean functions over an explicit `State` record,
partial state updates become an `Update` record of `Option` fields, external
collaborators (the LLM, the interactive prompt, persistence) are passed as
explicit oracle arguments or reified as `Effect` values, and Python strings
are Lean `String`s (with Python `strip`/`lower`/slicing modelled over
`String.data`).
-/

namespace PromotionCoach

/-- Python `str.strip()` on the character list of a string. -/
def pyStripData (l : List Char) : List Char :=
  ((l.dropWhile Char.isWhitespace).reverse.dropWhile Char.isWhitespace).reverse

/-- Python `str.strip()`. -/
def pyStrip (s : String) : String := String.mk (pyStripData s.data)

/-- Python `str.lower()`. -/
def pyLower (s : String) : String := String.mk (s.data.map Char.toLower)

/-- `startsWithL needle hay` is true when `hay` starts with `needle`. -/
def startsWithL : List Char → List Char → Bool
  | [], _ => true
  | _ :: _, [] => false
  | a :: as, b :: bs => (a == b) && startsWithL as bs

/-- `containsSub needle hay`: `needle` occurs as a contiguous run of `hay`. -/
def containsSub (needle : List Char) : List Char → Bool
  | [] => needle.isEmpty
  | c :: t => startsWithL needle (c :: t) || containsSub needle t

/-- Python `needle in hay` on strings. -/
def strContains (hay needle : String) : Bool := containsSub needle.data hay.data

/-- Python `d.get(k, dflt)` for a string-valued dict. -/
def dictGet (d : List (String × String)) (k dflt : String) : String :=
  (d.lookup k).getD dflt

/-- Python `d.get(k)` (default `None`) for a dict whose values may be `None`. -/
def pyDictGetOpt (d : List (String × Option String)) (k : String) : Option String :=
  (d.lookup k).getD none

/-- `workflow_type` values, from `src/orchestrator/state.py` (`WorkflowType`). -/
inductive WorkflowType where
  | first_time
  | with_existing_outputs
deriving DecidableEq, Repr

/-- A tool-call request attached to an AI message (LangChain `tool_calls` entry). -/
structure ToolCall where
  name : String
  args : List (String × String)
deriving DecidableEq, Repr

/-- Conversation messages: AI messages (which may carry tool calls),
tool-result messages, human messages and system messages. -/
inductive Msg where
  | ai (content : String) (tool_calls : List ToolCall)
  | tool (content : String)
  | human (content : String)
  | system (content : String)
deriving DecidableEq, Repr

/-- `msg.content`: every message kind has a content attribute. -/
def Msg.content : Msg → String
  | .ai c _ => c
  | .tool c => c
  | .human c => c
  | .system c => c

/-- Python `hasattr(msg, "tool_calls") and msg.tool_calls`: only AI messages
carry the attribute, the list is truthy when non-empty. -/
def Msg.toolCalls : Msg → List ToolCall
  | .ai _ tc => tc
  | _ => []

/-- Python `isinstance(msg, ToolMessage)`. -/
def Msg.isToolMessage : Msg → Bool
  | .tool _ => true
  | _ => false

/-- The shared workflow state, from `State` in `src/orchestrator/state.py`. -/
structure State where
  name : String
  current_level : String
  target_level : String
  discipline : String
  data_files : List (String × String)
  competency_analyzer_output : String
  gap_analyzer_output : String
  opportunity_finder_output : String
  promotion_package_output : String
  learning_budget : String
  learning_style : String
  time_availability : String
  wants_course_suggestions : Option Bool
  human_feedback : String
  workflow_type : WorkflowType
  messages : List Msg
deriving DecidableEq, Repr

/-- A partial state update returned by a node: `none` means the key is absent
from the returned dictionary.  The `message` field models the extra
`"message"` key returned by `save_outputs_node`. -/
structure Update where
  competency_analyzer_output : Option String := none
  gap_analyzer_output : Option String := none
  opportunity_finder_output : Option String := none
  promotion_package_output : Option String := none
  learning_budget : Option String := none
  learning_style : Option String := none
  time_availability : Option String := none
  wants_course_suggestions : Option Bool := none
  human_feedback : Option String := none
  messages : Option (List Msg) := none
  message : Option String := none
deriving DecidableEq, Repr

/-- The empty partial update (`return {}` in Python). -/
def emptyUpdate : Update := {}

/-- Persistence side effects performed by `save_outputs_node`
(`save_output` calls and the combined HTML report write). -/
inductive Effect where
  | save (name output_type content : String)
  | writeReport (name : String) (outputs : List (String × String))
deriving DecidableEq, Repr

/-- `reduce_opportunity_output` from `src/orchestrator/state.py` lines 8-32. -/
def reduce_opportunity_output (old_output new_output : Option String) : String :=
  let old := old_output.getD ""
  let recent := new_output.getD ""
  if old = "" ∨ pyStrip old = "" then
    (if recent ≠ "" then recent else old)
  else if recent = "" ∨ pyStrip recent = "" then
    old
  else
    recent

/-- The truncation notice appended when the end of the text is kept
(`truncate_text`, `src/utils.py` line 68). -/
def truncNote (max_chars : Nat) : String :=
  "\n\n[Note: Previous content truncated to " ++ toString max_chars ++
    " chars for token conservation - showing most recent content]"

/-- The truncation notice appended when the beginning of the text is kept
(`truncate_text`, `src/utils.py` line 72). -/
def truncNoteFront (max_chars : Nat) : String :=
  "\n\n[Note: Remaining content truncated to " ++ toString max_chars ++
    " chars for token conservation]"

/-- Python `text[-k:]` on a character list. -/
def pySliceLast (text : List Char) (k : Nat) : List Char :=
  if k = 0 then text else text.drop (text.length - k)

/-- `truncate_text` from `src/utils.py` lines 50-74, over the character list of
the Python string. -/
def truncate_text (text : List Char) (max_chars : Nat) (preserve_end : Bool) : List Char :=
  if text = [] ∨ text.length ≤ max_chars then
    text
  else if preserve_end then
    pySliceLast text max_chars ++ (truncNote max_chars).data
  else
    text.take max_chars ++ (truncNoteFront max_chars).data

/-- `truncate_input_dict` from `src/utils.py` lines 77-94 (all values produced
by `prepare_input` are strings, so the `isinstance(value, str)` branch always
applies). -/
def truncate_input_dict (input_data : List (String × List Char)) (max_chars_per_field : Nat) :
    List (String × List Char) :=
  input_data.map (fun kv => (kv.1, truncate_text kv.2 max_chars_per_field true))

/-- The state-merge engine: apply a partial update to the state.  Plain fields
overwrite when the key is present; `opportunity_finder_output` goes through
`reduce_opportunity_output` (its annotated reducer); `messages` uses the
append semantics of the `add_messages` channel. -/
def applyUpdate (state : State) (u : Update) : State :=
  { state with
    competency_analyzer_output := u.competency_analyzer_output.getD state.competency_analyzer_output
    gap_analyzer_output := u.gap_analyzer_output.getD state.gap_analyzer_output
    opportunity_finder_output :=
      match u.opportunity_finder_output with
      | none => state.opportunity_finder_output
      | some v => reduce_opportunity_output (some state.opportunity_finder_output) (some v)
    promotion_package_output := u.promotion_package_output.getD state.promotion_package_output
    learning_budget := u.learning_budget.getD state.learning_budget
    learning_style := u.learning_style.getD state.learning_style
    time_availability := u.time_availability.getD state.time_availability
    wants_course_suggestions :=
      match u.wants_course_suggestions with
      | none => state.wants_course_suggestions
      | some b => some b
    human_feedback := u.human_feedback.getD state.human_feedback
    messages :=
      match u.messages with
      | none => state.messages
      | some ms => state.messages ++ ms }

/-- Names of the routing targets used by the conditional edges
(`src/orchestrator/routing.py` lines 5-10). -/
inductive Route where
  | competency_analyzer
  | gap_analyzer
  | tools
  | human_review
  | save_outputs
deriving DecidableEq, Repr

/-- `route_workflow` from `src/orchestrator/routing.py` lines 13-30. -/
def route_workflow (state : State) : Route :=
  if state.workflow_type = WorkflowType.first_time then
    Route.competency_analyzer
  else
    Route.gap_analyzer

/-- `should_continue_after_opportunity_finder` from
`src/orchestrator/routing.py` lines 33-53. -/
def should_continue_after_opportunity_finder (state : State) : Route :=
  if state.human_feedback = "edit" then
    Route.human_review
  else
    Route.save_outputs

/-- The conditional-edge map installed on the entry node by `create_graph`
(`src/orchestrator/graph.py` lines 67-74): route name to graph node name. -/
def entry_conditional_edges (r : Route) : Option String :=
  match r with
  | Route.competency_analyzer => some "competency_analyzer"
  | Route.gap_analyzer => some "gap_analyzer"
  | _ => none

/-- `opportunity_finder_with_tools` from `src/orchestrator/nodes.py` lines
10-47.  The delegated call `opportunity_finder_node(state, config)` is the
opaque collaborator `agent`. -/
def opportunity_finder_with_tools (agent : State → Update) (state : State) : Update :=
  let existing_output := pyStrip state.opportunity_finder_output
  let wants_course_suggestions := state.wants_course_suggestions
  if existing_output ≠ "" ∧ wants_course_suggestions = none then
    {}
  else
    agent state

/-- An LLM chat response: text content plus any tool-call requests. -/
structure LLMResponse where
  content : String
  tool_calls : List ToolCall
deriving DecidableEq, Repr

/-- The post-response logic of `OpportunityFinderAgent.execute`
(`src/agents/opportunity_finder.py` lines 115-136); `response` is the result
of the opaque chain invocation. -/
def opportunityFinderExecute (response : LLMResponse) : Update :=
  let output_content := response.content
  if response.tool_calls ≠ [] then
    { messages := some [Msg.ai response.content response.tool_calls] }
  else if output_content ≠ "" ∧ pyStrip output_content ≠ "" then
    { opportunity_finder_output := some output_content }
  else
    {}

/-- `ToolProcessor.extract_tool_results` from `src/orchestrator/tools.py`
lines 98-123: scan the messages, keeping the last message with non-empty
tool calls as `ai_message` and collecting the contents of tool-result-like
messages. -/
def extract_tool_results (messages : List Msg) : List String × Option Msg :=
  messages.foldl
    (fun acc msg =>
      if msg.toolCalls ≠ [] then
        (acc.1, some msg)
      else if msg.isToolMessage ||
          (strContains msg.content "courses_found" ||
           strContains msg.content "skill_gap" ||
           msg.isToolMessage) then
        (acc.1 ++ [msg.content], acc.2)
      else
        acc)
    ([], none)

/-- The `final_messages` prompt built by `ToolProcessor.process`
(`src/orchestrator/tools.py` lines 59-88). -/
def toolSynthesisMessages (state : State) (tool_results : List String) : List Msg :=
  let gap_analysis := state.gap_analyzer_output
  let data_files := state.data_files
  [Msg.system
      ("You are a Career Opportunity Strategist who connects " ++
       "engineers with the right learning resources and project opportunities."),
   Msg.human
      ("Create a comprehensive opportunity analysis based on:\n\nGap Analysis:\n" ++
       gap_analysis ++
       "\n\nCourse Search Results:\n" ++
       String.intercalate "\n" tool_results ++
       "\n\nOpportunity Sources:\n- Project Pipeline: " ++
       dictGet data_files "project_pipeline" "N/A" ++
       "\n- Company Initiatives: " ++
       dictGet data_files "company_initiatives" "N/A" ++
       "\n- Team Roadmap: " ++
       dictGet data_files "team_roadmap" "N/A" ++
       "\n\nLearning Preferences:\n- Budget: " ++
       state.learning_budget ++
       "\n- Style: " ++
       state.learning_style ++
       "\n- Time: " ++
       state.time_availability ++
       "\n\nProvide structured recommendations with:" ++
       "\n- Learning courses (from search results, with links, prices, duration)" ++
       "\n- Project opportunities\n- Quick wins\n- Stretch goals\n- Recommended priorities")]

/-- `ToolProcessor.process` from `src/orchestrator/tools.py` lines 27-96;
`llm` is the opaque `llm.invoke` collaborator. -/
def toolProcessorProcess (llm : List Msg → String) (state : State)
    (tool_results : List String) : Update :=
  let wants_course_suggestions := state.wants_course_suggestions
  let existing_output := pyStrip state.opportunity_finder_output
  if existing_output ≠ "" ∧ wants_course_suggestions = none then
    { messages := some [] }
  else
    { opportunity_finder_output := some (llm (toolSynthesisMessages state tool_results))
      messages := some [] }

/-- The fallback prompt built by `process_tool_results`
(`src/orchestrator/tools.py` lines 164-167). -/
def fallbackMessages (state : State) : List Msg :=
  [Msg.system "You are a Career Opportunity Strategist.",
   Msg.human
      ("Gap Analysis:\n" ++ state.gap_analyzer_output ++
       "\n\nProvide opportunity recommendations.")]

/-- `process_tool_results` from `src/orchestrator/tools.py` lines 126-172. -/
def process_tool_results (llm : List Msg → String) (state : State) : Update :=
  let wants_course_suggestions := state.wants_course_suggestions
  let existing_output := pyStrip state.opportunity_finder_output
  if existing_output ≠ "" ∧ wants_course_suggestions = none then
    { messages := some [] }
  else
    let extracted := extract_tool_results state.messages
    let tool_results := extracted.1
    let ai_message := extracted.2
    if ai_message.isSome ∧ tool_results ≠ [] then
      toolProcessorProcess llm state tool_results
    else if state.opportunity_finder_output ≠ "" then
      { messages := some [] }
    else
      { opportunity_finder_output := some (llm (fallbackMessages state))
        messages := some [] }

/-- `human_review_node` from `src/orchestrator/nodes.py` lines 156-217.
`first_line` is the operator answer read by `input()`, `edit_lines` the lines
typed before EOF when the answer is `edit`. -/
def human_review_node (first_line : String) (edit_lines : List String) : Update :=
  let user_input := pyLower (pyStrip first_line)
  if user_input = "edit" then
    { opportunity_finder_output := some (String.intercalate "\n" edit_lines)
      human_feedback := some "edited" }
  else if user_input = "approve" then
    { human_feedback := some "approved" }
  else
    { human_feedback := some "skipped" }

/-- The outputs dictionary collected by `save_outputs_node`
(`src/orchestrator/nodes.py` lines 262-278). -/
def save_outputs_collect (state : State) : List (String × String) :=
  (if state.competency_analyzer_output ≠ "" then
    [("competency_analyzer", state.competency_analyzer_output)] else []) ++
  (if state.gap_analyzer_output ≠ "" then
    [("gap_analyzer", state.gap_analyzer_output)] else []) ++
  (if state.opportunity_finder_output ≠ "" then
    [("opportunity_finder", state.opportunity_finder_output)] else []) ++
  (if state.promotion_package_output ≠ "" then
    [("promotion_package", state.promotion_package_output)] else [])

/-- The saving body of `save_outputs_node` (`src/orchestrator/nodes.py` lines
257-287): one `save_output` call per non-empty slot, plus the combined report
write when any output exists. -/
def save_outputs_body (state : State) : Update × List Effect :=
  let outputs := save_outputs_collect state
  ({ message := some "Outputs saved successfully" },
   outputs.map (fun kv => Effect.save state.name kv.1 kv.2) ++
   (if outputs ≠ [] then [Effect.writeReport state.name outputs] else []))

/-- `save_outputs_node` from `src/orchestrator/nodes.py` lines 220-287, with
its persistence side effects reified in the second component. -/
def save_outputs_node (state : State) : Update × List Effect :=
  match state.workflow_type with
  | WorkflowType.first_time =>
    if pyStrip state.promotion_package_output ≠ "" ∧
       pyStrip state.opportunity_finder_output ≠ "" ∧
       pyStrip state.human_feedback ≠ "" then
      save_outputs_body state
    else
      ({}, [])
  | WorkflowType.with_existing_outputs =>
    if pyStrip state.opportunity_finder_output ≠ "" ∧
       pyStrip state.human_feedback ≠ "" then
      save_outputs_body state
    else
      ({}, [])

/-- `validate_state` of `GapAnalyzerAgent` (`src/agents/gap_analyzer.py`
lines 29-39). -/
def gapErrorMissingCompetency : String :=
  "Error: Competency analyzer output is missing. Please run competency analysis first."

/-- Error text for an empty LLM response (`src/agents/gap_analyzer.py` lines 92-101). -/
def gapErrorEmptyResponse : String :=
  "Gap analysis could not be generated. The LLM returned an empty response. Please check your GEMINI_API_KEY and try again."

/-- Error text on `ResourceExhausted` (`src/agents/gap_analyzer.py` lines 105-114). -/
def gapErrorQuotaExceeded : String :=
  "Gap analysis failed due to API quota limit exceeded. The Gemini API daily input token quota (250,000 tokens) has been reached. Input data has been truncated. Please try again later or reduce data file sizes."

/-- Error text for the ValueError branch (`src/agents/gap_analyzer.py` lines 116-128). -/
def gapErrorNoGenerations : String :=
  "Gap analysis generation encountered an issue. The LLM did not return a response. This may be due to API quota limits, content filtering, or network issues. Input data has been truncated. Please check your GEMINI_API_KEY and try again."

/-- Error text for quota-related generic exceptions (`src/agents/gap_analyzer.py` lines 138-141). -/
def gapErrorQuotaOther : String :=
  "Gap analysis failed due to API quota limit. Input data has been truncated. Please try again later."

/-- `GapAnalyzerAgent.validate_state` (`src/agents/gap_analyzer.py` lines 29-39). -/
def gapValidateState (state : State) : Option Update :=
  if pyStrip state.competency_analyzer_output = "" then
    some { gap_analyzer_output := some gapErrorMissingCompetency }
  else
    none

/-- Outcome of the opaque chain invocation inside `GapAnalyzerAgent.execute`:
it returns content, or raises one of the exception kinds the code handles. -/
inductive LLMOutcome where
  | success (content : String)
  | resourceExhausted (emsg : String)
  | valueError (emsg : String)
  | otherError (error_type estr : String)
deriving DecidableEq, Repr

/-- `GapAnalyzerAgent.execute` from `src/agents/gap_analyzer.py` lines 57-152.
`Except.error` models an exception escaping the step (the re-raise of a
ValueError that is not a "No generations found" error); every handled path is
`Except.ok`. -/
def gapAnalyzerExecute (state : State) (outcome : LLMOutcome) : Except String Update :=
  match gapValidateState state with
  | some validation_error => Except.ok validation_error
  | none =>
    match outcome with
    | LLMOutcome.success content =>
      if content = "" ∨ pyStrip content = "" then
        Except.ok { gap_analyzer_output := some gapErrorEmptyResponse }
      else
        Except.ok { gap_analyzer_output := some content }
    | LLMOutcome.resourceExhausted _ =>
      Except.ok { gap_analyzer_output := some gapErrorQuotaExceeded }
    | LLMOutcome.valueError emsg =>
      if strContains emsg "No generations found" then
        Except.ok { gap_analyzer_output := some gapErrorNoGenerations }
      else
        Except.error emsg
    | LLMOutcome.otherError error_type estr =>
      let estr200 := String.mk (estr.data.take 200)
      if strContains (pyLower estr200) "quota" ∨ strContains estr200 "429" ∨
         strContains estr200 "ResourceExhausted" then
        Except.ok { gap_analyzer_output := some gapErrorQuotaOther }
      else
        Except.ok
          { gap_analyzer_output := some
              ("Gap analysis generation failed with error: " ++ error_type ++ ": " ++
               estr200 ++ ". Please check your GEMINI_API_KEY and network connection.") }

/-- The `workflow_type` determination of `run_workflow`
(`src/orchestrator/workflow.py` lines 47-49): `previous_outputs` is the
dictionary produced by `load_all_outputs`, whose values may be `None`. -/
def run_workflow_type (previous_outputs : List (String × Option String)) : WorkflowType :=
  let has_competency_output := (pyDictGetOpt previous_outputs "competency_analyzer").isSome
  if has_competency_output then
    WorkflowType.with_existing_outputs
  else
    WorkflowType.first_time

/-- Claim-side predicate, written from the spec words of C7: "any previous
output exists (any of the four output kinds is present)". -/
def specAnyPreviousOutputPresent (previous_outputs : List (String × Option String)) : Bool :=
  (pyDictGetOpt previous_outputs "competency_analyzer").isSome ||
  (pyDictGetOpt previous_outputs "gap_analyzer").isSome ||
  (pyDictGetOpt previous_outputs "opportunity_finder").isSome ||
  (pyDictGetOpt previous_outputs "promotion_package").isSome

/-- The 10,000-character all-'a' field used as concrete truncation input. -/
def aText : List Char := List.replicate 10000 'a'

/-- A concrete first-time state with no outputs yet and an empty message log
(used to exercise the fallback branch of `process_tool_results`). -/
def stFallback : State :=
  { name := "Ada", current_level := "L4", target_level := "L5", discipline := "SWE",
    data_files := [], competency_analyzer_output := "", gap_analyzer_output := "g",
    opportunity_finder_output := "", promotion_package_output := "",
    learning_budget := "Not specified", learning_style := "online",
    time_availability := "Not specified", wants_course_suggestions := none,
    human_feedback := "", workflow_type := WorkflowType.first_time, messages := [] }

/-- A resumed-run state: existing opportunity output, preference flag unset. -/
def stSkip : State :=
  { stFallback with
    workflow_type := WorkflowType.with_existing_outputs
    opportunity_finder_output := "previous opportunities" }

/-- A state where preferences were just collected (flag set) and an old
opportunity output exists. -/
def stForce : State :=
  { stFallback with
    opportunity_finder_output := "previous opportunities"
    wants_course_suggestions := some true }

/-- A first-time state in which both converging branches have completed. -/
def stReady : State :=
  { stFallback with
    competency_analyzer_output := "c"
    gap_analyzer_output := "g"
    opportunity_finder_output := "o"
    promotion_package_output := "p"
    human_feedback := "approved" }

/-- A state whose message log holds one AI tool-call request followed by one
matching tool result. -/
def stToolRound : State :=
  { stFallback with
    wants_course_suggestions := some true
    messages := [Msg.ai "" [{ name := "search_learning_courses", args := [] }],
                 Msg.tool "courses_found: 3"] }

/-- A state with a non-empty competency output (gap-analysis precondition met). -/
def stGap : State :=
  { stFallback with
    competency_analyzer_output := "competency report" }

/-- A constant collaborator standing in for `llm.invoke`. -/
def fallbackOracle : List Msg → String := fun _ => "FALLBACK"

/-- A concrete opportunity-finder collaborator used in witnesses. -/
def agentW : State → Update := fun _ => { opportunity_finder_output := some "fresh" }

/-- The `previous_outputs` dictionary produced by `load_all_outputs` when only
the gap-analyzer output file exists. -/
def prevOnlyGap : List (String × Option String) :=
  [("competency_analyzer", none), ("gap_analyzer", some "gap text"),
   ("opportunity_finder", none), ("promotion_package", none)]

/-- Helper: the empty string strips to the empty string. -/
theorem pyStrip_empty : pyStrip "" = "" := rfl

/-- Claim C2, counterexample: the claim says `merge(old, new)` returns `old`
whenever `new` is empty after trimming, but for `old = "  "` (whitespace only)
and `new = " "` the reducer returns `" "`, not `"  "`. -/
theorem reduce_opportunity_output_claim_counterexample :
    pyStrip " " = "" ∧
    reduce_opportunity_output (some "  ") (some " ") = " " ∧
    reduce_opportunity_output (some "  ") (some " ") ≠ "  " := by decide

/-- Claim C2 (amended): the reducer returns `new` whenever `new` is non-empty
after trimming; when `new` is empty after trimming it returns `old` provided
`old` is non-empty after trimming; when both are empty after trimming it
returns `old` only for `new = ""`, and otherwise the (whitespace) `new`.  In
particular `merge("", "") = ""` and `merge("x", "") = "x"`. -/
theorem reduce_opportunity_output_merge_law (old recent : String) :
    (pyStrip recent ≠ "" → reduce_opportunity_output (some old) (some recent) = recent) ∧
    (pyStrip recent = "" → pyStrip old ≠ "" →
       reduce_opportunity_output (some old) (some recent) = old) ∧
    (pyStrip recent = "" → pyStrip old = "" →
       reduce_opportunity_output (some old) (some recent) =
         (if recent = "" then old else recent)) ∧
    reduce_opportunity_output (some "") (some "") = "" ∧
    reduce_opportunity_output (some "x") (some "") = "x" := by
  refine ⟨?_, ?_, ?_, by decide, by decide⟩
  · intro hr
    have hrne : recent ≠ "" := by
      intro he; rw [he] at hr; exact hr pyStrip_empty
    by_cases ho : old = "" ∨ pyStrip old = ""
    · simp only [reduce_opportunity_output, Option.getD_some]
      rw [if_pos ho, if_pos hrne]
    · simp only [reduce_opportunity_output, Option.getD_some]
      rw [if_neg ho, if_neg (by simp [hrne, hr])]
  · intro hr ho
    have hone : old ≠ "" := by
      intro he; rw [he] at ho; exact ho pyStrip_empty
    simp only [reduce_opportunity_output, Option.getD_some]
    rw [if_neg (by simp [hone, ho]), if_pos (Or.inr hr)]
  · intro hr ho
    simp only [reduce_opportunity_output, Option.getD_some]
    rw [if_pos (Or.inr ho)]
    by_cases he : recent = ""
    · rw [if_neg (by simp [he]), if_pos he]
    · rw [if_pos he, if_neg he]

/-- Witness for C2's amended theorem at concrete inputs. -/
theorem reduce_opportunity_output_merge_law_witness :
    reduce_opportunity_output (some "a") (some "b") = "b" ∧
    reduce_opportunity_output (some "a") (some " ") = "a" ∧
    reduce_opportunity_output (some " ") (some " ") = " " := by
  refine ⟨(reduce_opportunity_output_merge_law "a" "b").1 (by decide),
          (reduce_opportunity_output_merge_law "a" " ").2.1 (by decide) (by decide),
          ?_⟩
  have h := (reduce_opportunity_output_merge_law " " " ").2.2.1 (by decide) (by decide)
  rwa [if_neg (by decide)] at h

/-- Claim C3: if the opportunity output is non-empty after trimming and the
wants-course-suggestions flag is unset, the node returns the empty update;
if the flag is explicitly set (true or false) the node delegates to the
regenerating agent even when prior output exists. -/
theorem opportunity_finder_skip_and_force_refresh (agent : State → Update) (state : State) :
    (pyStrip state.opportunity_finder_output ≠ "" → state.wants_course_suggestions = none →
       opportunity_finder_with_tools agent state = emptyUpdate) ∧
    (∀ b : Bool, state.wants_course_suggestions = some b →
       opportunity_finder_with_tools agent state = agent state) := by
  constructor
  · intro h1 h2
    simp only [opportunity_finder_with_tools]
    rw [if_pos ⟨h1, h2⟩]
    rfl
  · intro b hb
    simp only [opportunity_finder_with_tools]
    rw [if_neg (by simp [hb])]

/-- Witness for C3 at concrete states: a resumed state (output present, flag
unset) skips, and a state with the flag just set regenerates despite the old
output. -/
theorem opportunity_finder_skip_and_force_refresh_witness :
    opportunity_finder_with_tools agentW stSkip = emptyUpdate ∧
    opportunity_finder_with_tools agentW stForce = agentW stForce :=
  ⟨(opportunity_finder_skip_and_force_refresh agentW stSkip).1 (by decide) (by decide),
   (opportunity_finder_skip_and_force_refresh agentW stForce).2 true (by decide)⟩

/-- Claim C6: when the LLM response carries tool calls, the opportunity-finder
step returns exactly the raw response appended to the message log, and the
opportunity output slot is absent from the update. -/
theorem opportunity_finder_tool_calls_no_output_write (response : LLMResponse)
    (h : response.tool_calls ≠ []) :
    opportunityFinderExecute response =
      { messages := some [Msg.ai response.content response.tool_calls] } ∧
    (opportunityFinderExecute response).opportunity_finder_output = none := by
  simp only [opportunityFinderExecute]
  rw [if_pos h]
  exact ⟨rfl, rfl⟩

/-- Witness for C6 at a concrete response carrying one tool call. -/
theorem opportunity_finder_tool_calls_no_output_write_witness :
    (opportunityFinderExecute
        { content := "", tool_calls := [{ name := "search_learning_courses", args := [] }] }
      ).opportunity_finder_output = none :=
  (opportunity_finder_tool_calls_no_output_write
       { content := "", tool_calls := [{ name := "search_learning_courses", args := [] }] }
       (by decide)).2

/-- Claim C7, counterexample: with only a previous gap-analyzer output
present, the claim demands `with_existing_outputs`, but the driver sets
`first_time` (it tests only the competency output). -/
theorem run_workflow_type_counterexample :
    specAnyPreviousOutputPresent prevOnlyGap = true ∧
    run_workflow_type prevOnlyGap = WorkflowType.first_time ∧
    run_workflow_type prevOnlyGap ≠ WorkflowType.with_existing_outputs := by decide

/-- Claim C7 (amended): the driver sets `workflow_type` to
`with_existing_outputs` if and only if the previous competency-analyzer
output is present; other previous outputs are not consulted. -/
theorem run_workflow_type_competency_only (previous_outputs : List (String × Option String)) :
    run_workflow_type previous_outputs = WorkflowType.with_existing_outputs ↔
      (pyDictGetOpt previous_outputs "competency_analyzer").isSome = true := by
  simp only [run_workflow_type]
  cases h : (pyDictGetOpt previous_outputs "competency_analyzer").isSome
  · simp [h]
  · simp [h]

/-- Witness for C7's amended theorem at a concrete dictionary. -/
theorem run_workflow_type_competency_only_witness :
    run_workflow_type [("competency_analyzer", some "x")] = WorkflowType.with_existing_outputs :=
  (run_workflow_type_competency_only [("competency_analyzer", some "x")]).mpr (by decide)

/-- Claim C8: the entry router sends `with_existing_outputs` states to the
gap-analysis node (never competency analysis) and `first_time` states to the
competency-analysis node. -/
theorem route_workflow_determinism (state : State) :
    (state.workflow_type = WorkflowType.with_existing_outputs →
       route_workflow state = Route.gap_analyzer ∧
       route_workflow state ≠ Route.competency_analyzer ∧
       entry_conditional_edges (route_workflow state) = some "gap_analyzer") ∧
    (state.workflow_type = WorkflowType.first_time →
       route_workflow state = Route.competency_analyzer ∧
       entry_conditional_edges (route_workflow state) = some "competency_analyzer") := by
  constructor
  · intro h
    simp only [route_workflow, h]
    exact ⟨rfl, by decide, rfl⟩
  · intro h
    simp only [route_workflow, h]
    exact ⟨rfl, rfl⟩

/-- Witness for C8 at concrete states of both workflow types. -/
theorem route_workflow_determinism_witness :
    route_workflow stSkip = Route.gap_analyzer ∧
    route_workflow stFallback = Route.competency_analyzer :=
  ⟨((route_workflow_determinism stSkip).1 rfl).1,
   ((route_workflow_determinism stFallback).2 rfl).1⟩

/-- Helper: truncating a 10,000-character text at budget 6000 keeps the last
6000 characters and appends the notice. -/
theorem trunc_len10000_eq (text : List Char) (h : text.length = 10000) :
    truncate_text text 6000 true = text.drop 4000 ++ (truncNote 6000).data := by
  have hne : ¬(text = [] ∨ text.length ≤ 6000) := by
    rintro (he | hle)
    · rw [he] at h; simp at h
    · rw [h] at hle; omega
  unfold truncate_text pySliceLast
  rw [if_neg hne, if_pos rfl, if_neg (by omega : ¬(6000 = 0)), h]

/-- Helper: re-truncating a text of length 6000 + notice-length at budget 6000
drops a notice-length run from the front of the kept tail and appends the
notice again. -/
theorem trunc_again_eq (t : List Char)
    (h : t.length = 6000 + (truncNote 6000).data.length) :
    truncate_text t 6000 true =
      t.drop ((truncNote 6000).data.length) ++ (truncNote 6000).data := by
  have hnl : 0 < (truncNote 6000).data.length := by decide
  have hne : ¬(t = [] ∨ t.length ≤ 6000) := by
    rintro (he | hle)
    · rw [he] at h; simp at h; omega
    · rw [h] at hle; omega
  unfold truncate_text pySliceLast
  rw [if_neg hne, if_pos rfl, if_neg (by omega : ¬(6000 = 0)), h]
  have harith : 6000 + (truncNote 6000).data.length - 6000 = (truncNote 6000).data.length := by
    omega
  rw [harith]

/-- Claim C4, counterexample: truncation at the same budget is not idempotent.
For the 10,000-character all-'a' input, the first truncation yields 6000 'a's
plus the notice, which is longer than the budget, so the second truncation
truncates again (duplicating the notice) instead of returning the first
result unchanged. -/
theorem truncate_text_not_idempotent_counterexample :
    truncate_text (truncate_text aText 6000 true) 6000 true ≠ truncate_text aText 6000 true := by
  have h1 : truncate_text aText 6000 true =
      List.replicate 6000 'a' ++ (truncNote 6000).data := by
    rw [trunc_len10000_eq aText (by unfold aText; exact List.length_replicate ..)]
    unfold aText
    rw [List.drop_replicate]
  have hlen1 : (truncate_text aText 6000 true).length =
      6000 + (truncNote 6000).data.length := by
    rw [h1, List.length_append, List.length_replicate]
  have h2 := trunc_again_eq _ hlen1
  have hnle : (truncNote 6000).data.length ≤ 6000 := by decide
  have hdrop : (List.replicate 6000 'a' ++ (truncNote 6000).data).drop
      ((truncNote 6000).data.length) =
      List.replicate (6000 - (truncNote 6000).data.length) 'a' ++ (truncNote 6000).data := by
    rw [List.drop_append_eq_append_drop, List.drop_replicate, List.length_replicate]
    have hz : (truncNote 6000).data.length - 6000 = 0 := by omega
    rw [hz, List.drop_zero]
  intro he
  rw [h2, h1, hdrop] at he
  have hrep : ∀ n : Nat, (List.replicate n 'a').count '\n' = 0 := by
    intro n; simp [List.count_replicate]
  have hcn : (truncNote 6000).data.count '\n' = 2 := by decide
  have hcount := congrArg (List.count '\n') he
  rw [List.count_append, List.count_append, List.count_append, hrep, hrep, hcn] at hcount
  omega

/-- Claim C4 (amended): truncating a 10,000-character field at budget 6000
yields 6000 + notice-length characters whose first 6000 characters are the
final 6000 characters of the original; but a second truncation at the same
budget is not the identity: it truncates again, dropping the first
notice-length characters of the retained tail and appending the notice a
second time. -/
theorem truncate_text_budget_tail_retruncation (text : List Char) (h : text.length = 10000) :
    (truncate_text text 6000 true).length ≤ 6000 + (truncNote 6000).data.length ∧
    (truncate_text text 6000 true).take 6000 = text.drop 4000 ∧
    truncate_text (truncate_text text 6000 true) 6000 true =
      (truncate_text text 6000 true).drop ((truncNote 6000).data.length) ++
        (truncNote 6000).data := by
  have heq := trunc_len10000_eq text h
  have hdlen : (text.drop 4000).length = 6000 := by rw [List.length_drop, h]
  have hlen1 : (truncate_text text 6000 true).length =
      6000 + (truncNote 6000).data.length := by
    rw [heq, List.length_append, hdlen]
  refine ⟨le_of_eq hlen1, ?_, trunc_again_eq _ hlen1⟩
  rw [heq, List.take_left' hdlen]

/-- Witness for C4's amended theorem at the concrete all-'a' input. -/
theorem truncate_text_budget_tail_retruncation_witness :
    (truncate_text aText 6000 true).take 6000 = aText.drop 4000 :=
  (truncate_text_budget_tail_retruncation aText (by unfold aText; exact List.length_replicate ..)).2.1

/-- Claim C5, counterexample: with an empty message log (no AI tool-call
message and no tool result) and an empty opportunity slot, the claim demands
an unchanged pass-through, but `process_tool_results` synthesizes a fallback
answer: it writes the opportunity output slot and returns a messages entry. -/
theorem process_tool_results_passthrough_counterexample :
    extract_tool_results stFallback.messages = ([], none) ∧
    process_tool_results fallbackOracle stFallback =
      { opportunity_finder_output := some "FALLBACK", messages := some ([] : List Msg) } ∧
    process_tool_results fallbackOracle stFallback ≠ emptyUpdate := by decide

/-- Claim C5 (amended): unless the resume-skip rule applies (non-empty
opportunity output with the preference flag unset, in which case only an
empty messages entry is returned), `process_tool_results` synthesizes a final
answer from the tool results and returns an empty messages entry exactly when
the scan finds both an AI message with tool calls and at least one
tool-result message; when either is missing it returns only an empty messages
entry if the opportunity slot is already non-empty, and otherwise synthesizes
a fallback answer without tool results into the opportunity slot. -/
theorem process_tool_results_branches (llm : List Msg → String) (state : State) :
    (pyStrip state.opportunity_finder_output ≠ "" → state.wants_course_suggestions = none →
       process_tool_results llm state = { messages := some [] }) ∧
    (¬(pyStrip state.opportunity_finder_output ≠ "" ∧ state.wants_course_suggestions = none) →
       (extract_tool_results state.messages).2.isSome = true →
       (extract_tool_results state.messages).1 ≠ [] →
       process_tool_results llm state =
         { opportunity_finder_output :=
             some (llm (toolSynthesisMessages state (extract_tool_results state.messages).1))
           messages := some [] }) ∧
    (¬(pyStrip state.opportunity_finder_output ≠ "" ∧ state.wants_course_suggestions = none) →
       ¬((extract_tool_results state.messages).2.isSome = true ∧
         (extract_tool_results state.messages).1 ≠ []) →
       state.opportunity_finder_output ≠ "" →
       process_tool_results llm state = { messages := some [] }) ∧
    (¬(pyStrip state.opportunity_finder_output ≠ "" ∧ state.wants_course_suggestions = none) →
       ¬((extract_tool_results state.messages).2.isSome = true ∧
         (extract_tool_results state.messages).1 ≠ []) →
       state.opportunity_finder_output = "" →
       process_tool_results llm state =
         { opportunity_finder_output := some (llm (fallbackMessages state))
           messages := some [] }) := by
  refine ⟨?_, ?_, ?_, ?_⟩
  · intro h1 h2
    simp only [process_tool_results]
    rw [if_pos ⟨h1, h2⟩]
  · intro hns hai htr
    simp only [process_tool_results, toolProcessorProcess]
    rw [if_neg hns, if_pos ⟨hai, htr⟩, if_neg hns]
  · intro hns hnot ho
    simp only [process_tool_results]
    rw [if_neg hns, if_neg hnot, if_pos ho]
  · intro hns hnot ho
    simp only [process_tool_results]
    rw [if_neg hns, if_neg hnot, if_neg (by simp [ho])]

/-- Witness for C5's amended theorem: the skip branch, the synthesis branch
(one tool-call request plus one matching tool result) and the fallback branch
at concrete states. -/
theorem process_tool_results_branches_witness :
    process_tool_results fallbackOracle stSkip = { messages := some ([] : List Msg) } ∧
    process_tool_results fallbackOracle stToolRound =
      { opportunity_finder_output :=
          some (fallbackOracle
            (toolSynthesisMessages stToolRound (extract_tool_results stToolRound.messages).1))
        messages := some ([] : List Msg) } ∧
    process_tool_results fallbackOracle stFallback =
      { opportunity_finder_output := some (fallbackOracle (fallbackMessages stFallback))
        messages := some ([] : List Msg) } :=
  ⟨(process_tool_results_branches fallbackOracle stSkip).1 (by decide) rfl,
   (process_tool_results_branches fallbackOracle stToolRound).2.1
      (by decide) (by decide) (by decide),
   (process_tool_results_branches fallbackOracle stFallback).2.2.2
      (by decide) (by decide) rfl⟩

/-- Claim C1: `save_outputs` gates on the workflow_type-specific readiness
predicate (first_time: non-empty promotion-package, opportunity and
human-feedback after trimming; with_existing_outputs: non-empty opportunity
and human-feedback); when the predicate fails it returns the empty update and
performs no persistence side effects, and when it holds it runs the saving
body. -/
theorem save_outputs_readiness_gate (state : State) :
    (¬ (match state.workflow_type with
        | WorkflowType.first_time =>
            pyStrip state.promotion_package_output ≠ "" ∧
            pyStrip state.opportunity_finder_output ≠ "" ∧
            pyStrip state.human_feedback ≠ ""
        | WorkflowType.with_existing_outputs =>
            pyStrip state.opportunity_finder_output ≠ "" ∧
            pyStrip state.human_feedback ≠ "") →
      save_outputs_node state = (emptyUpdate, ([] : List Effect))) ∧
    ((match state.workflow_type with
        | WorkflowType.first_time =>
            pyStrip state.promotion_package_output ≠ "" ∧
            pyStrip state.opportunity_finder_output ≠ "" ∧
            pyStrip state.human_feedback ≠ ""
        | WorkflowType.with_existing_outputs =>
            pyStrip state.opportunity_finder_output ≠ "" ∧
            pyStrip state.human_feedback ≠ "") →
      save_outputs_node state = save_outputs_body state) := by
  unfold save_outputs_node
  cases h : state.workflow_type <;>
    exact ⟨fun hn => if_neg hn, fun hp => if_pos hp⟩

/-- Witness for C1: a first-time state with empty outputs is not ready and
yields no update and no effects; a completed first-time state is ready. -/
theorem save_outputs_readiness_gate_witness :
    save_outputs_node stFallback = (emptyUpdate, ([] : List Effect)) ∧
    save_outputs_node stReady = save_outputs_body stReady :=
  ⟨(save_outputs_readiness_gate stFallback).1
      (fun hcon =>
        (by decide : ¬(pyStrip stFallback.promotion_package_output ≠ "" ∧
            pyStrip stFallback.opportunity_finder_output ≠ "" ∧
            pyStrip stFallback.human_feedback ≠ "")) hcon),
   (save_outputs_readiness_gate stReady).2
      (by decide : pyStrip stReady.promotion_package_output ≠ "" ∧
          pyStrip stReady.opportunity_finder_output ≠ "" ∧
          pyStrip stReady.human_feedback ≠ "")⟩

/-- Claim C9: the gap-analysis step absorbs its specified failure modes
instead of raising: a missing competency output short-circuits to an
explanatory error payload (independently of the LLM outcome, so the LLM call
is never consulted), quota exhaustion becomes a descriptive error string in
the gap slot, and an empty LLM response becomes a descriptive error string in
the gap slot. -/
theorem gap_analyzer_absorbs_failures (state : State) (outcome : LLMOutcome) :
    (pyStrip state.competency_analyzer_output = "" →
       gapAnalyzerExecute state outcome =
         Except.ok { gap_analyzer_output := some gapErrorMissingCompetency }) ∧
    (pyStrip state.competency_analyzer_output ≠ "" →
       ∀ emsg, outcome = LLMOutcome.resourceExhausted emsg →
         gapAnalyzerExecute state outcome =
           Except.ok { gap_analyzer_output := some gapErrorQuotaExceeded }) ∧
    (pyStrip state.competency_analyzer_output ≠ "" →
       ∀ content, outcome = LLMOutcome.success content → pyStrip content = "" →
         gapAnalyzerExecute state outcome =
           Except.ok { gap_analyzer_output := some gapErrorEmptyResponse }) := by
  refine ⟨?_, ?_, ?_⟩
  · intro h
    unfold gapAnalyzerExecute gapValidateState
    rw [if_pos h]
  · intro h emsg ho
    unfold gapAnalyzerExecute gapValidateState
    rw [if_neg h, ho]
  · intro h content ho hc
    unfold gapAnalyzerExecute gapValidateState
    rw [if_neg h, ho]
    exact if_pos (Or.inr hc)

/-- Witness for C9 at concrete states and outcomes: empty competency output,
a quota-exhaustion signal, and an empty LLM response. -/
theorem gap_analyzer_absorbs_failures_witness :
    gapAnalyzerExecute stFallback (LLMOutcome.success "hello") =
      Except.ok { gap_analyzer_output := some gapErrorMissingCompetency } ∧
    gapAnalyzerExecute stGap (LLMOutcome.resourceExhausted "429") =
      Except.ok { gap_analyzer_output := some gapErrorQuotaExceeded } ∧
    gapAnalyzerExecute stGap (LLMOutcome.success " ") =
      Except.ok { gap_analyzer_output := some gapErrorEmptyResponse } :=
  ⟨(gap_analyzer_absorbs_failures stFallback (LLMOutcome.success "hello")).1 (by decide),
   (gap_analyzer_absorbs_failures stGap (LLMOutcome.resourceExhausted "429")).2.1
      (by decide) "429" rfl,
   (gap_analyzer_absorbs_failures stGap (LLMOutcome.success " ")).2.2
      (by decide) " " rfl (by decide)⟩

/-- Claim C10: whatever the operator types, the human-review step returns a
`human_feedback` value among "approved", "edited" and "skipped" (never "edit"
and never empty), so the post-review router applied to the merged state always
selects `save_outputs` and the loop-back edge to `human_review` is never
taken. -/
theorem human_review_terminal_feedback (first_line : String) (edit_lines : List String)
    (state : State) :
    ((human_review_node first_line edit_lines).human_feedback = some "approved" ∨
     (human_review_node first_line edit_lines).human_feedback = some "edited" ∨
     (human_review_node first_line edit_lines).human_feedback = some "skipped") ∧
    (human_review_node first_line edit_lines).human_feedback ≠ some "edit" ∧
    (human_review_node first_line edit_lines).human_feedback ≠ some "" ∧
    should_continue_after_opportunity_finder
        (applyUpdate state (human_review_node first_line edit_lines)) = Route.save_outputs := by
  unfold human_review_node
  by_cases h1 : pyLower (pyStrip first_line) = "edit"
  · rw [if_pos h1]
    exact ⟨Or.inr (Or.inl rfl), by simp, by simp,
      by simp [should_continue_after_opportunity_finder, applyUpdate]⟩
  · rw [if_neg h1]
    by_cases h2 : pyLower (pyStrip first_line) = "approve"
    · rw [if_pos h2]
      exact ⟨Or.inl rfl, by decide, by decide,
        by simp [should_continue_after_opportunity_finder, applyUpdate]⟩
    · rw [if_neg h2]
      exact ⟨Or.inr (Or.inr rfl), by decide, by decide,
        by simp [should_continue_after_opportunity_finder, applyUpdate]⟩

/-- Witness for C10 at concrete operator inputs. -/
theorem human_review_terminal_feedback_witness :
    should_continue_after_opportunity_finder
        (applyUpdate stFallback (human_review_node "edit" ["new text"])) = Route.save_outputs ∧
    should_continue_after_opportunity_finder
        (applyUpdate stFallback (human_review_node " APPROVE " [])) = Route.save_outputs ∧
    should_continue_after_opportunity_finder
        (applyUpdate stFallback (human_review_node "whatever" [])) = Route.save_outputs :=
  ⟨(human_review_terminal_feedback "edit" ["new text"] stFallback).2.2.2,
   (human_review_terminal_feedback " APPROVE " [] stFallback).2.2.2,
   (human_review_terminal_feedback "whatever" [] stFallback).2.2.2⟩

end PromotionCoach
